import Mathlib

/-!
# List-of-nested-objects adapter and Route 53 finders

A shallow embedding of `internal/framework/types/list_nested_objectof.go` and of
`FindHealthCheckByID` / `FindTrafficPolicyInstanceId` from
`internal/service/route53/find.go`.

Conventions of the embedding

* A Go type argument `T` is a `GoType`: the name of the type.  Two instantiations
  `G[T1]` and `G[T2]` are the same Go type exactly when `T1 = T2`, so a type
  assertion `o.(G[T])` succeeds exactly when `o` was built as a `G` with the same name.
* A Go interface value (`attr.Type`, `attr.Value`) is an inductive with one constructor
  for each concrete type this package inspects and one for every other implementation.
* The element level (the Object Adapter, primitive attribute types, their wire values and
  the native records) is not fixed: it is a `Framework` record of the operations the list
  level calls on its elements, and every theorem holds for every such record.
* A Go function that can panic returns an `Option`; `none` is the panic.  The wire encoding
  of a list without an element type is left out of the model and is `none` as well.
* A Go result pair `(value, error)` is a pair of `Option`s; `none` is `nil`.
* `diag.Diagnostics` is a list; the `nil` collection is `[]`.
-/

/-- Name of a Go type used as the type argument `T`; identity of type arguments is nominal. -/
abbrev GoType := String

namespace attr

/-- The three states of `attr.ValueState`, in the order of their numeric values 0, 1, 2. -/
inductive ValueState
  | ValueStateNull
  | ValueStateUnknown
  | ValueStateKnown
  deriving DecidableEq, Repr

end attr

namespace diag

/-- Severity of a diagnostic (`diag.Severity`). -/
inductive Severity
  | SeverityError
  | SeverityWarning
  deriving DecidableEq, Repr

/-- One `diag.Diagnostic`.  The error that `basetypes.NewListValue` adds for an element of
the wrong type is kept structured: its text names the list's element type, the index of the
offending element and that element's own type.  Every other diagnostic is its severity,
summary and detail. -/
inductive Diagnostic (E : Type)
  | invalidListElementType (elementType : E) (idx : Nat) (actual : E)
  | general (severity : Severity) (summary : String) (detail : String)
  deriving DecidableEq, Repr

/-- Severity of a diagnostic: "Invalid List Element Type" is added with `AddError`. -/
def Diagnostic.Severity {E : Type} : Diagnostic E → diag.Severity
  | .invalidListElementType _ _ _ => .SeverityError
  | .general s _ _ => s

/-- The collection `diag.Diagnostics`. -/
abbrev Diagnostics (E : Type) := List (Diagnostic E)

/-- `Diagnostics.HasError`: some diagnostic has error severity. -/
def Diagnostics.HasError {E : Type} (diags : Diagnostics E) : Bool :=
  diags.any (fun d => decide (d.Severity = diag.Severity.SeverityError))

end diag

namespace basetypes

/-- The struct `basetypes.ListType`; `ElemType` is `none` in the Go zero value. -/
structure ListType (E : Type) where
  ElemType : Option E
  deriving DecidableEq, Repr

/-- The struct `basetypes.ListValue`; the zero value is null with no element type. -/
structure ListValue (E V : Type) where
  elements : List V
  elementType : Option E
  state : attr.ValueState
  deriving DecidableEq, Repr

end basetypes

/-- The struct `ListNestedObjectTypeOf[T]`: the type argument and the embedded
`basetypes.ListType`. -/
structure ListNestedObjectTypeOf (E : Type) where
  T : GoType
  ListType : basetypes.ListType E
  deriving DecidableEq, Repr

/-- The struct `ListNestedObjectValueOf[T]`: the type argument and the embedded
`basetypes.ListValue`. -/
structure ListNestedObjectValueOf (E V : Type) where
  T : GoType
  ListValue : basetypes.ListValue E V
  deriving DecidableEq, Repr

namespace attr

/-- An `attr.Type` interface value, by dynamic type. -/
inductive AttrType (E : Type)
  | ListType (l : basetypes.ListType E)
  | ListNestedObjectTypeOf (t : ListNestedObjectTypeOf E)
  | elem (e : E)
  deriving DecidableEq, Repr

/-- An `attr.Value` interface value, by dynamic type. -/
inductive Value (E V : Type)
  | ListValue (l : basetypes.ListValue E V)
  | ListNestedObjectValueOf (v : ListNestedObjectValueOf E V)
  | elem (v : V)
  deriving DecidableEq, Repr

end attr

/-- A Go `error` value returned on the decode path.  `text` is an error made by the
framework or by an element type; the other two are the errors that
`ListNestedObjectTypeOf.ValueFromTerraform` formats itself, kept with the operand
they print. -/
inductive DecodeError (E V : Type)
  | text (msg : String)
  | unexpectedValueType (attrValue : Option (attr.Value E V))
  | convertingListValue (diags : diag.Diagnostics E)
  deriving DecidableEq, Repr

namespace tftypes

/-- A `tftypes.Type` seen from the list level: `tftypes.List` with its element type, or any
other type. -/
inductive WireType (WT : Type)
  | List (ElementType : WT)
  | notList (t : WT)
  deriving DecidableEq, Repr

/-- The `value` field of a `tftypes.Value`: the unknown marker, `nil`, a `[]tftypes.Value`,
or anything else. -/
inductive Payload (W : Type)
  | unknown
  | null
  | elems (vs : List W)
  | notList
  deriving DecidableEq, Repr

/-- A `tftypes.Value`; `typ` is `none` in the zero value. -/
structure Value (W WT : Type) where
  typ : Option (WireType WT)
  value : Payload W
  deriving DecidableEq, Repr

end tftypes

/-- Operations the list level calls on its elements and on the Object Adapter, none of which
is in the sources; they are parameters of the embedding.  In the order of the fields:
`attr.Type.Equal`, `attr.Type.TerraformType`, `attr.Type.ValueFromTerraform`,
`attr.Value.Type`, `attr.Value.Equal`, `attr.Value.ToTerraformValue`, `tftypes.Value.Type`,
`tftypes.Type.UsableAs`, `reflect.FromValue` on one native element (value and diagnostics),
and `NewObjectTypeOf[T]`, a function of `T` alone. -/
structure Framework (E V W WT N : Type) where
  typeEqual : E → E → Bool
  terraformType : E → WT
  valueFromTerraform : E → W → Except String V
  valueType : V → E
  valueEqual : V → V → Bool
  toTerraformValue : V → Except String W
  wireType : W → WT
  usableAs : WT → WT → Bool
  fromValue : E → N → Option V × diag.Diagnostics E
  NewObjectTypeOf : GoType → E

section ListLevel

variable {E V W WT N : Type}

namespace basetypes

/-- Modelled from the spec: `basetypes.ListType.Equal` of the plugin framework is missing from the
sources.  List-type equality recurses into element-type equality; a list type without an
element type equals nothing. -/
def ListType.Equal (fw : Framework E V W WT N) (l : ListType E) (o : attr.AttrType E) : Bool :=
  match l.ElemType with
  | none => false
  | some elemType =>
    match o with
    | .ListType other =>
      match other.ElemType with
      | none => false
      | some otherElem => fw.typeEqual elemType otherElem
    | _ => false

/-- Modelled from the spec: `basetypes.NewListNull` (construct-null) is missing from the sources. -/
def NewListNull (elementType : Option E) : ListValue E V :=
  { elements := [], elementType := elementType, state := .ValueStateNull }

/-- Modelled from the spec: `basetypes.NewListUnknown` (construct-unknown) is missing from the sources. -/
def NewListUnknown (elementType : Option E) : ListValue E V :=
  { elements := [], elementType := elementType, state := .ValueStateUnknown }

/-- Modelled from the spec: `basetypes.ListValue.IsNull` is missing from the sources. -/
def ListValue.IsNull (l : ListValue E V) : Bool :=
  decide (l.state = .ValueStateNull)

/-- Modelled from the spec: `basetypes.ListValue.IsUnknown` is missing from the sources. -/
def ListValue.IsUnknown (l : ListValue E V) : Bool :=
  decide (l.state = .ValueStateUnknown)

/-- Modelled from the spec: `basetypes.ListValue.Elements` (element iteration) is missing from the
sources. -/
def ListValue.Elements (l : ListValue E V) : List V :=
  l.elements

/-- Modelled from the spec: the element loop of `basetypes.NewListValue`, which is missing from the
sources.  It collects one "Invalid List Element Type" error for every element, at its index,
whose type the element type does not `Equal`. -/
def invalidElementDiags (fw : Framework E V W WT N) (elementType : E) :
    Nat → List V → diag.Diagnostics E
  | _, [] => []
  | idx, element :: rest =>
    if fw.typeEqual elementType (fw.valueType element) then
      invalidElementDiags fw elementType (idx + 1) rest
    else
      .invalidListElementType elementType idx (fw.valueType element)
        :: invalidElementDiags fw elementType (idx + 1) rest

/-- Modelled from the spec: `basetypes.NewListValue` (construct-from-elements) is missing from the
sources.  It keeps the elements as they are under the given element type, and fails with an
error diagnostic and the unknown list when an element has an unexpected concrete type. -/
def NewListValue (fw : Framework E V W WT N) (elementType : E) (elements : List V) :
    ListValue E V × diag.Diagnostics E :=
  let diags := invalidElementDiags fw elementType 0 elements
  if diags.HasError then
    (NewListUnknown (some elementType), diags)
  else
    ({ elements := elements, elementType := some elementType, state := .ValueStateKnown }, [])

/-- Modelled from the spec: `basetypes.NewListValueMust` is missing from the sources.  It panics when
`NewListValue` reports an error. -/
def NewListValueMust (fw : Framework E V W WT N) (elementType : E) (elements : List V) :
    Option (ListValue E V) :=
  let r := NewListValue fw elementType elements
  if r.2.HasError then none else some r.1

/-- Modelled from the spec: `basetypes.ListValue.Equal` is missing from the sources.  List-value
equality covers the element types, the null/unknown/known state, and element-wise equality
when both are known. -/
def ListValue.Equal (fw : Framework E V W WT N) (l : ListValue E V) (o : attr.Value E V) : Bool :=
  match o with
  | .ListValue other =>
    match l.elementType, other.elementType with
    | some elementType, some otherType =>
      if !fw.typeEqual elementType otherType then false
      else if l.state ≠ other.state then false
      else if l.state ≠ .ValueStateKnown then true
      else if l.elements.length ≠ other.elements.length then false
      else (l.elements.zip other.elements).all (fun p => fw.valueEqual p.1 p.2)
    | _, _ => false
  | _ => false

end basetypes

/-- The constructor `NewListNestedObjectTypeOf[T]`. -/
def NewListNestedObjectTypeOf (fw : Framework E V W WT N) (T : GoType) :
    ListNestedObjectTypeOf E :=
  { T := T, ListType := { ElemType := some (fw.NewObjectTypeOf T) } }

/-- The method `ListNestedObjectTypeOf[T].Equal`. -/
def ListNestedObjectTypeOf.Equal (fw : Framework E V W WT N) (t : ListNestedObjectTypeOf E)
    (o : attr.AttrType E) : Bool :=
  match o with
  | .ListNestedObjectTypeOf other =>
    if other.T = t.T then
      basetypes.ListType.Equal fw t.ListType (.ListType other.ListType)
    else false
  | _ => false

/-- The constructor `NewListNestedObjectValueOfNull[T]`. -/
def NewListNestedObjectValueOfNull (fw : Framework E V W WT N) (T : GoType) :
    ListNestedObjectValueOf E V :=
  { T := T, ListValue := basetypes.NewListNull (some (fw.NewObjectTypeOf T)) }

/-- The constructor `NewListNestedObjectValueOfUnknown[T]`. -/
def NewListNestedObjectValueOfUnknown (fw : Framework E V W WT N) (T : GoType) :
    ListNestedObjectValueOf E V :=
  { T := T, ListValue := basetypes.NewListUnknown (some (fw.NewObjectTypeOf T)) }

/-- The method `ListNestedObjectTypeOf[T].ValueFromList`; the receiver contributes only its
type argument. -/
def ListNestedObjectTypeOf.ValueFromList (fw : Framework E V W WT N)
    (t : ListNestedObjectTypeOf E) (in_ : basetypes.ListValue E V) :
    ListNestedObjectValueOf E V × diag.Diagnostics E :=
  if in_.IsNull then
    (NewListNestedObjectValueOfNull fw t.T, [])
  else if in_.IsUnknown then
    (NewListNestedObjectValueOfUnknown fw t.T, [])
  else
    let r := basetypes.NewListValue fw (fw.NewObjectTypeOf t.T) in_.Elements
    if r.2.HasError then
      (NewListNestedObjectValueOfUnknown fw t.T, r.2)
    else
      ({ T := t.T, ListValue := r.1 }, [])

/-- The method `ListNestedObjectValueOf[T].Equal`. -/
def ListNestedObjectValueOf.Equal (fw : Framework E V W WT N)
    (v : ListNestedObjectValueOf E V) (o : attr.Value E V) : Bool :=
  match o with
  | .ListNestedObjectValueOf other =>
    if other.T = v.T then
      basetypes.ListValue.Equal fw v.ListValue (.ListValue other.ListValue)
    else false
  | _ => false

end ListLevel

section WireLevel

variable {E V W WT N : Type}

namespace tftypes

/-- Modelled from the spec: `tftypes.Type.Equal` is missing from the sources.  Wire types are plain
data and are compared structurally; a list type only equals a list type. -/
def WireType.Equal [DecidableEq WT] : WireType WT → WireType WT → Bool
  | .List a, .List b => decide (a = b)
  | .notList a, .notList b => decide (a = b)
  | _, _ => false

/-- Modelled from the spec: `tftypes.Value.IsKnown` is missing from the sources. -/
def Value.IsKnown (v : Value W WT) : Bool :=
  match v.value with
  | .unknown => false
  | _ => true

/-- Modelled from the spec: `tftypes.Value.IsNull` is missing from the sources. -/
def Value.IsNull (v : Value W WT) : Bool :=
  match v.value with
  | .null => true
  | _ => false

/-- Modelled from the spec: `tftypes.Value.As` into a `[]tftypes.Value` is missing from the sources. -/
def Value.As (v : Value W WT) : Except (DecodeError E V) (List W) :=
  match v.value with
  | .unknown => .error (.text "unmarshaling unknown values is not supported")
  | .null => .ok []
  | .elems vs => .ok vs
  | .notList => .error (.text "can't unmarshal value, expected []tftypes.Value")

/-- Modelled from the spec: the element loop of `tftypes.ValidateValue` on a list, which is
missing from the sources.  Every element's type is usable as the list's element type and equals the
type of the first element. -/
def validateListLoop (fw : Framework E V W WT N) [DecidableEq WT] (typ : WT) :
    Option WT → List W → Option (DecodeError E V)
  | _, [] => none
  | valType, v :: rest =>
    if !fw.usableAs (fw.wireType v) typ then
      some (.text "can't use element as the list's element type")
    else
      let valType := valType.getD (fw.wireType v)
      if fw.wireType v ≠ valType then
        some (.text "lists must only contain one type of element")
      else validateListLoop fw typ (some valType) rest

/-- Modelled from the spec: `tftypes.ValidateValue` of a `[]tftypes.Value` against a type is
missing from the sources. -/
def ValidateValue (fw : Framework E V W WT N) [DecidableEq WT] (t : WireType WT)
    (vals : List W) : Option (DecodeError E V) :=
  match t with
  | .List typ => validateListLoop fw typ none vals
  | .notList _ => some (.text "can't use []tftypes.Value as a value of this type")

end tftypes

namespace basetypes

/-- Modelled from the spec: `basetypes.ListType.TerraformType` is missing from the sources.
It is the wire list type over the element type's wire type; `none` when the list type has no
element type, for which the wire types here have no counterpart. -/
def ListType.TerraformType (fw : Framework E V W WT N) (l : ListType E) :
    Option (tftypes.WireType WT) :=
  l.ElemType.map (fun elemType => .List (fw.terraformType elemType))

/-- Modelled from the spec: the element loop of the generic list decoder, which is missing from the
sources.  Each wire element is decoded by the element type, and the first failure is returned
as it is. -/
def decodeElements (fw : Framework E V W WT N) (elemType : E) :
    List W → Except (DecodeError E V) (List V)
  | [] => .ok []
  | elem :: rest =>
    match fw.valueFromTerraform elemType elem with
    | .error msg => .error (.text msg)
    | .ok av =>
      match decodeElements fw elemType rest with
      | .error err => .error err
      | .ok elems => .ok (av :: elems)

/-- Modelled from the spec: `basetypes.ListType.ValueFromTerraform` (decode-from-wire), the
underlying generic list decoder, is missing from the sources.  It yields a generic list value or fails
with a decode error.  A value without a type decodes to null; after that the wire type is
compared with the list type's own.  A list type without an element type accepts no typed
wire value: decoding fails with an error. -/
def ListType.ValueFromTerraform (fw : Framework E V W WT N) [DecidableEq WT] (l : ListType E)
    (in_ : tftypes.Value W WT) :
    Option (Option (attr.Value E V) × Option (DecodeError E V)) :=
  match in_.typ with
  | none => some (some (.ListValue (NewListNull l.ElemType)), none)
  | some typ =>
    match l.ElemType with
    | none =>
      some (none, some (.text "can't use value as value of List with a missing ElementType"))
    | some elemType =>
      if !typ.Equal (.List (fw.terraformType elemType)) then
        some (none, some (.text "can't use value as value of List with this ElementType"))
      else if !in_.IsKnown then
        some (some (.ListValue (NewListUnknown l.ElemType)), none)
      else if in_.IsNull then
        some (some (.ListValue (NewListNull l.ElemType)), none)
      else
        match in_.As with
        | .error err => some (none, some err)
        | .ok val =>
          match decodeElements fw elemType val with
          | .error err => some (none, some err)
          | .ok elems =>
            (NewListValueMust fw elemType elems).map
              (fun list => (some (.ListValue list), none))

/-- Modelled from the spec: the element loop of `basetypes.ListValue.ToTerraformValue`, which
is missing from the sources.  Each element is encoded by its own type; the first failure stops it. -/
def encodeElements (fw : Framework E V W WT N) : List V → Except (DecodeError E V) (List W)
  | [] => .ok []
  | elem :: rest =>
    match fw.toTerraformValue elem with
    | .error msg => .error (.text msg)
    | .ok val =>
      match encodeElements fw rest with
      | .error err => .error err
      | .ok vals => .ok (val :: vals)

/-- Modelled from the spec: `basetypes.ListValue.ToTerraformValue`, the wire encoding of a list
value, is missing from the sources; `ListNestedObjectValueOf[T]` inherits it from the embedded
list value.  A list value without an element type has no wire type here and gives `none`. -/
def ListValue.ToTerraformValue (fw : Framework E V W WT N) [DecidableEq WT]
    (l : ListValue E V) : Option (tftypes.Value W WT × Option (DecodeError E V)) :=
  match l.elementType with
  | none => none
  | some elementType =>
    let listType : tftypes.WireType WT := .List (fw.terraformType elementType)
    match l.state with
    | .ValueStateKnown =>
      match encodeElements fw l.elements with
      | .error err => some ({ typ := some listType, value := .unknown }, some err)
      | .ok vals =>
        match tftypes.ValidateValue fw listType vals with
        | some err => some ({ typ := some listType, value := .unknown }, some err)
        | none => some ({ typ := some listType, value := .elems vals }, none)
    | .ValueStateNull => some ({ typ := some listType, value := .null }, none)
    | .ValueStateUnknown => some ({ typ := some listType, value := .unknown }, none)

end basetypes

/-- The method `ListNestedObjectTypeOf[T].ValueFromTerraform`. -/
def ListNestedObjectTypeOf.ValueFromTerraform (fw : Framework E V W WT N) [DecidableEq WT]
    (t : ListNestedObjectTypeOf E) (in_ : tftypes.Value W WT) :
    Option (Option (attr.Value E V) × Option (DecodeError E V)) :=
  match basetypes.ListType.ValueFromTerraform fw t.ListType in_ with
  | none => none
  | some (_, some err) => some (none, some err)
  | some (attrValue, none) =>
    match attrValue with
    | some (.ListValue listValue) =>
      let r := t.ValueFromList fw listValue
      if r.2.HasError then
        some (none, some (.convertingListValue r.2))
      else
        some (some (.ListNestedObjectValueOf r.1), none)
    | _ => some (none, some (.unexpectedValueType attrValue))

end WireLevel

section Construction

variable {E V W WT N : Type}

namespace reflect

/-- Modelled from the spec: the element loop of `reflect.FromSlice`, which is missing from the sources.
Each native element is converted by `reflect.FromValue` at the element type and then encoded;
the loop stops at the first error diagnostic or encoding error.  The outer `none` is the nil
dereference on a conversion that reports no error and no value.  Diagnostics are appended
as they come; the framework drops repeated ones, which does not change whether an error is
present. -/
def fromSliceLoop (fw : Framework E V W WT N) (elemType : E) :
    List N → diag.Diagnostics E → List W → Option (Option (List W) × diag.Diagnostics E)
  | [], diags, tfElems => some (some tfElems, diags)
  | native :: rest, diags, tfElems =>
    let r := fw.fromValue elemType native
    let diags := diags ++ r.2
    if diags.HasError then some (none, diags)
    else
      match r.1 with
      | none => none
      | some val =>
        match fw.toTerraformValue val with
        | .error _ =>
          some (none, diags ++ [.general .SeverityError "Value Conversion Error"
            "An unexpected error was encountered trying to convert the Attribute value into a Terraform value."])
        | .ok tfVal => fromSliceLoop fw elemType rest diags (tfElems ++ [tfVal])

/-- Modelled from the spec: `reflect.FromSlice` of the plugin framework, which converts a
native sequence into a generic list value of the given list type, is missing from the sources.  A Go
slice is `none` when it is nil.  A nil slice becomes the null list; any other slice becomes
the wire list of its converted elements, decoded again by the list type. -/
def FromSlice (fw : Framework E V W WT N) [DecidableEq WT] (typ : basetypes.ListType E)
    (val : Option (List N)) : Option (Option (attr.Value E V) × diag.Diagnostics E) :=
  match typ.TerraformType fw, typ.ElemType with
  | some tfType, some elemType =>
    match val with
    | none =>
      match typ.ValueFromTerraform fw { typ := some tfType, value := .null } with
      | none => none
      | some (_, some _) =>
        some (none, [.general .SeverityError "Value Conversion Error"
          "An unexpected error was encountered trying to convert from slice value."])
      | some (attrVal, none) => some (attrVal, [])
    | some natives =>
      match fromSliceLoop fw elemType natives [] [] with
      | none => none
      | some (none, diags) => some (none, diags)
      | some (some tfElems, diags) =>
        match tftypes.ValidateValue fw tfType tfElems with
        | some (_ : DecodeError E V) =>
          some (none, diags ++ [.general .SeverityError "Value Conversion Error"
            "An unexpected error was encountered trying to validate the Terraform value type."])
        | none =>
          match typ.ValueFromTerraform fw { typ := some tfType, value := .elems tfElems } with
          | none => none
          | some (_, some _) =>
            some (none, diags ++ [.general .SeverityError "Value Conversion Error"
              "An unexpected error was encountered trying to convert from slice value."])
          | some (attrVal, none) => some (attrVal, diags)
  | _, _ => none

end reflect

namespace basetypes

/-- Modelled from the spec: `basetypes.NewListValueFrom` is missing from the sources.  It converts the
native sequence into a generic list value using the given element type, and returns the
unknown list with the diagnostics when the conversion reports an error. -/
def NewListValueFrom (fw : Framework E V W WT N) [DecidableEq WT] (elementType : E)
    (elements : Option (List N)) : Option (ListValue E V × diag.Diagnostics E) :=
  match reflect.FromSlice fw { ElemType := some elementType } elements with
  | none => none
  | some (attrValue, diags) =>
    if diags.HasError then some (NewListUnknown (some elementType), diags)
    else
      match attrValue with
      | some (.ListValue list) => some (list, diags)
      | _ =>
        some ({ elements := [], elementType := none, state := .ValueStateNull },
          diags ++ [.general .SeverityError "Unable to Convert List Value"
            "An unexpected result occurred when creating a List using NewListValueFrom."])

end basetypes

namespace fwdiag

/-- Modelled from the spec: `fwdiag.Must` of this repository is missing from the sources.  The
construction must fail loudly: it returns the value when the diagnostics hold no error and
panics otherwise. -/
def Must {α : Type} (x : α) (diags : diag.Diagnostics E) : Option α :=
  if diags.HasError then none else some x

end fwdiag

/-- The internal routine `newListNestedObjectValueOf[T]`. -/
def newListNestedObjectValueOf (fw : Framework E V W WT N) [DecidableEq WT] (T : GoType)
    (elements : Option (List N)) : Option (ListNestedObjectValueOf E V) :=
  match basetypes.NewListValueFrom fw (fw.NewObjectTypeOf T) elements with
  | none => none
  | some r =>
    match fwdiag.Must r.1 r.2 with
    | none => none
    | some listValue => some { T := T, ListValue := listValue }

/-- The constructor `NewListNestedObjectValueOfSlice[T]`. -/
def NewListNestedObjectValueOfSlice (fw : Framework E V W WT N) [DecidableEq WT] (T : GoType)
    (ts : Option (List N)) : Option (ListNestedObjectValueOf E V) :=
  newListNestedObjectValueOf fw T ts

/-- The constructor `NewListNestedObjectValueOfValueSlice[T]`. -/
def NewListNestedObjectValueOfValueSlice (fw : Framework E V W WT N) [DecidableEq WT]
    (T : GoType) (ts : Option (List N)) : Option (ListNestedObjectValueOf E V) :=
  newListNestedObjectValueOf fw T ts

/-- The constructor `NewListNestedObjectValueOf[T]`: the one-element slice of `t`. -/
def NewListNestedObjectValueOf (fw : Framework E V W WT N) [DecidableEq WT] (T : GoType)
    (t : N) : Option (ListNestedObjectValueOf E V) :=
  NewListNestedObjectValueOfSlice fw T (some [t])

end Construction

section Contract

variable {E V W WT N : Type}

/-- Conditions on the element level for `T` under which the construction round trip is
proved.  They are assumptions about the Object Adapter, which the spec's consumed contract
(`DescribeType`, `ValueType`) does not state: its type descriptor is `Equal` to itself, what
it decodes is of its type, and its conversion is lossless, that is, every value of its type
encodes to a wire value usable at its wire type that decodes back to an `Equal` value. -/
structure LosslessObjectAdapter (fw : Framework E V W WT N) (T : GoType) : Prop where
  type_refl : fw.typeEqual (fw.NewObjectTypeOf T) (fw.NewObjectTypeOf T) = true
  decode_typed : ∀ (w : W) (v : V), fw.valueFromTerraform (fw.NewObjectTypeOf T) w = .ok v →
    fw.typeEqual (fw.NewObjectTypeOf T) (fw.valueType v) = true
  round_trip : ∀ v : V, fw.typeEqual (fw.NewObjectTypeOf T) (fw.valueType v) = true →
    ∃ w : W, fw.toTerraformValue v = .ok w ∧
      fw.usableAs (fw.wireType w) (fw.terraformType (fw.NewObjectTypeOf T)) = true ∧
      ∃ v2 : V, fw.valueFromTerraform (fw.NewObjectTypeOf T) w = .ok v2 ∧
        fw.valueEqual v2 v = true

/-- Modelled from the spec: the Object Adapter of this repository is missing from the sources.  It can
represent the native record `r` as a `T` when converting `r` at the object type of `T` gives
a value of that type and no error diagnostic. -/
def Representable (fw : Framework E V W WT N) (T : GoType) (r : N) : Prop :=
  ∃ v : V, (fw.fromValue (fw.NewObjectTypeOf T) r).1 = some v ∧
    (fw.fromValue (fw.NewObjectTypeOf T) r).2.HasError = false ∧
    fw.typeEqual (fw.NewObjectTypeOf T) (fw.valueType v) = true

end Contract

namespace route53

/-- The error code `route53.ErrCodeNoSuchHealthCheck`. -/
def ErrCodeNoSuchHealthCheck : String := "NoSuchHealthCheck"

/-- The error code `route53.ErrCodeNoSuchTrafficPolicyInstance`. -/
def ErrCodeNoSuchTrafficPolicyInstance : String := "NoSuchTrafficPolicyInstance"

/-- The struct `route53.HealthCheckConfig`, by the one field kept here. -/
structure HealthCheckConfig where
  FullyQualifiedDomainName : String
  deriving DecidableEq, Repr

/-- The struct `route53.HealthCheck`; a nil pointer field is `none`. -/
structure HealthCheck where
  Id : String
  HealthCheckConfig : Option HealthCheckConfig
  deriving DecidableEq, Repr

/-- The struct `route53.GetHealthCheckInput`. -/
structure GetHealthCheckInput where
  HealthCheckId : String
  deriving DecidableEq, Repr

/-- The struct `route53.GetHealthCheckOutput`. -/
structure GetHealthCheckOutput where
  HealthCheck : Option HealthCheck
  deriving DecidableEq, Repr

/-- The struct `route53.GetTrafficPolicyInstanceInput`. -/
structure GetTrafficPolicyInstanceInput where
  Id : String
  deriving DecidableEq, Repr

/-- The struct `route53.GetTrafficPolicyInstanceOutput`, by the instance id it carries. -/
structure GetTrafficPolicyInstanceOutput where
  TrafficPolicyInstanceId : String
  deriving DecidableEq, Repr

/-- An error returned by an SDK call: an `awserr.Error` with its code, any other error, or an
error that wraps another one. -/
inductive SdkError
  | awserr (code : String) (message : String)
  | plain (message : String)
  | wrapped (message : String) (err : SdkError)
  deriving DecidableEq, Repr

/-- An error returned by a finder: the SDK's error itself, a `*resource.NotFoundError` built
by the finder with its fields, or the value of `tfresource.NewEmptyResultError` for a request,
which is made from the request alone. -/
inductive FindError (Req : Type)
  | sdk (err : SdkError)
  | NotFoundError (LastError : Option SdkError) (LastRequest : Req) (Message : String)
  | EmptyResultError (LastRequest : Req)
  deriving DecidableEq, Repr

/-- The client `*route53.Route53`, by the response of each call the finders make. -/
structure Route53 where
  GetHealthCheck : GetHealthCheckInput → Option GetHealthCheckOutput × Option SdkError
  GetTrafficPolicyInstanceWithContext :
    GetTrafficPolicyInstanceInput → Option GetTrafficPolicyInstanceOutput × Option SdkError

end route53

namespace tfawserr

/-- Modelled from the spec: the search of `errors.As` for an `awserr.Error`, used by
`tfawserr.ErrCodeEquals`, is missing from the sources.  It gives the code of the first
`awserr.Error` in the chain of wrapped errors, if there is one. -/
def awsErrorCode : route53.SdkError → Option String
  | .awserr code _ => some code
  | .plain _ => none
  | .wrapped _ err => awsErrorCode err

/-- Modelled from the spec: the helper `tfawserr.ErrCodeEquals` is missing from the sources.
It maps an error code to a yes or no: the error is, or wraps, an `awserr.Error` with the given
code; a nil error has no code. -/
def ErrCodeEquals (err : Option route53.SdkError) (code : String) : Bool :=
  match err with
  | some e => decide (awsErrorCode e = some code)
  | none => false

end tfawserr

namespace route53

/-- The function `FindHealthCheckByID`. -/
def FindHealthCheckByID (conn : Route53) (id : String) :
    Option HealthCheck × Option (FindError GetHealthCheckInput) :=
  let input : GetHealthCheckInput := { HealthCheckId := id }
  let r := conn.GetHealthCheck input
  if tfawserr.ErrCodeEquals r.2 ErrCodeNoSuchHealthCheck then
    (none, some (.NotFoundError r.2 input ""))
  else
    match r.1 with
    | none => (none, some (.EmptyResultError input))
    | some output =>
      match output.HealthCheck with
      | none => (none, some (.EmptyResultError input))
      | some healthCheck =>
        match healthCheck.HealthCheckConfig with
        | none => (none, some (.EmptyResultError input))
        | some _ => (some healthCheck, none)

/-- The function `FindTrafficPolicyInstanceId`. -/
def FindTrafficPolicyInstanceId (conn : Route53) (id : String) :
    Option GetTrafficPolicyInstanceOutput × Option (FindError GetTrafficPolicyInstanceInput) :=
  let input : GetTrafficPolicyInstanceInput := { Id := id }
  let r := conn.GetTrafficPolicyInstanceWithContext input
  if tfawserr.ErrCodeEquals r.2 ErrCodeNoSuchTrafficPolicyInstance then
    (none, some (.NotFoundError r.2 input ""))
  else
    match r.2 with
    | some err => (none, some (.sdk err))
    | none =>
      match r.1 with
      | none => (none, some (.NotFoundError none input "Empty result"))
      | some resp => (some resp, none)

end route53

namespace Sample

/-- Element types of a small instance of the framework: the string type, and an object type
described by its attribute names. -/
inductive Ty
  | StringType
  | ObjectType (attrs : List String)
  deriving DecidableEq, Repr

/-- Native record with two fields. -/
structure Record where
  A : Nat
  B : String
  deriving DecidableEq, Repr

/-- Element values of the instance: a string, or an object holding a record under the
attribute names of its type. -/
inductive Val
  | StringValue (s : String)
  | ObjectValue (attrs : List String) (r : Record)
  deriving DecidableEq, Repr

/-- Wire types of the instance. -/
inductive WTy
  | String
  | Object (attrs : List String)
  deriving DecidableEq, Repr

/-- Wire values of the instance. -/
inductive Wire
  | str (s : String)
  | obj (attrs : List String) (r : Record)
  deriving DecidableEq, Repr

/-- Attribute names the instance derives from a type argument: the types `Record` and `Twin`
have the same two fields. -/
def attributeNames (T : GoType) : List String :=
  if T = "Record" ∨ T = "Twin" then ["a", "b"] else []

/-- A small instance of the framework whose object types are compared by shape. -/
def fw : Framework Ty Val Wire WTy Record where
  typeEqual := fun a b => decide (a = b)
  terraformType := fun t =>
    match t with
    | .StringType => .String
    | .ObjectType attrs => .Object attrs
  valueFromTerraform := fun t w =>
    match t, w with
    | .StringType, .str s => .ok (.StringValue s)
    | .ObjectType attrs, .obj wattrs r =>
      if attrs = wattrs then .ok (.ObjectValue attrs r) else .error "attribute-set mismatch"
    | _, _ => .error "wrong element shape"
  valueType := fun v =>
    match v with
    | .StringValue _ => .StringType
    | .ObjectValue attrs _ => .ObjectType attrs
  valueEqual := fun a b => decide (a = b)
  toTerraformValue := fun v =>
    match v with
    | .StringValue s => .ok (.str s)
    | .ObjectValue attrs r => .ok (.obj attrs r)
  wireType := fun w =>
    match w with
    | .str _ => .String
    | .obj attrs _ => .Object attrs
  usableAs := fun a b => decide (a = b)
  fromValue := fun t r =>
    match t with
    | .ObjectType attrs => (some (.ObjectValue attrs r), [])
    | .StringType =>
      (none, [.general .SeverityError "Value Conversion Error" "cannot use a struct as a string"])
  NewObjectTypeOf := fun T => .ObjectType (attributeNames T)

/-- The instance `fw` with a decoder that is not lossless: it decodes an object with field `A`
raised by one. -/
def drifting : Framework Ty Val Wire WTy Record :=
  { fw with
    valueFromTerraform := fun t w =>
      match t, w with
      | .StringType, .str s => .ok (.StringValue s)
      | .ObjectType attrs, .obj wattrs r =>
        if attrs = wattrs then .ok (.ObjectValue attrs { A := r.A + 1, B := r.B })
        else .error "attribute-set mismatch"
      | _, _ => .error "wrong element shape" }

/-- The record of the spec's concrete scenario. -/
def r : Record := { A := 1, B := "x" }

/-- A known generic list holding one string. -/
def stringList : basetypes.ListValue Ty Val :=
  { elements := [.StringValue "x"], elementType := some .StringType, state := .ValueStateKnown }

/-- A known generic list holding two objects of the type of `Record`. -/
def recordList : basetypes.ListValue Ty Val :=
  { elements := [.ObjectValue ["a", "b"] r, .ObjectValue ["a", "b"] { A := 2, B := "y" }],
    elementType := some (.ObjectType ["a", "b"]), state := .ValueStateKnown }

/-- A wire value whose type is a string, not a list. -/
def malformed : tftypes.Value Wire WTy :=
  { typ := some (.notList .String), value := .notList }

/-- A wire list of one string. -/
def wireStrings : tftypes.Value Wire WTy :=
  { typ := some (.List .String), value := .elems [.str "x"] }

/-- A descriptor for `Record` whose embedded list type was given the string element type. -/
def stringTyped : ListNestedObjectTypeOf Ty :=
  { T := "Record", ListType := { ElemType := some .StringType } }

/-- A client whose `GetHealthCheck` fails with a throttling error and an empty output. -/
def throttled : route53.Route53 where
  GetHealthCheck := fun _ => (some { HealthCheck := none }, some (.awserr "Throttling" "Rate exceeded"))
  GetTrafficPolicyInstanceWithContext := fun _ => (none, some (.awserr "Throttling" "Rate exceeded"))

/-- A client whose `GetHealthCheck` fails with a throttling error next to a filled output. -/
def throttledWithOutput : route53.Route53 where
  GetHealthCheck := fun input =>
    (some { HealthCheck := some { Id := input.HealthCheckId,
                                  HealthCheckConfig := some { FullyQualifiedDomainName := "example.com" } } },
      some (.awserr "Throttling" "Rate exceeded"))
  GetTrafficPolicyInstanceWithContext := fun input =>
    (some { TrafficPolicyInstanceId := input.Id }, some (.awserr "Throttling" "Rate exceeded"))

end Sample

/-! ## Facts about the framework primitives -/

section Lemmas

variable {E V W WT N : Type}

theorem hasError_nil : diag.Diagnostics.HasError ([] : diag.Diagnostics E) = false := rfl

theorem hasError_cons_invalid (elementType actual : E) (idx : Nat) (rest : diag.Diagnostics E) :
    diag.Diagnostics.HasError (.invalidListElementType elementType idx actual :: rest) = true := by
  simp [diag.Diagnostics.HasError, diag.Diagnostic.Severity]

theorem invalidElementDiags_eq_nil (fw : Framework E V W WT N) (elementType : E) :
    ∀ (elements : List V) (idx : Nat),
      (∀ e ∈ elements, fw.typeEqual elementType (fw.valueType e) = true) →
      basetypes.invalidElementDiags fw elementType idx elements = [] := by
  intro elements
  induction elements with
  | nil => intro idx _; rfl
  | cons e rest ih =>
    intro idx h
    have he : fw.typeEqual elementType (fw.valueType e) = true := h e (List.mem_cons_self _ _)
    have hrest : ∀ x ∈ rest, fw.typeEqual elementType (fw.valueType x) = true :=
      fun x hx => h x (List.mem_cons_of_mem _ hx)
    simp [basetypes.invalidElementDiags, he, ih (idx + 1) hrest]

theorem invalidElementDiags_mem (fw : Framework E V W WT N) (elementType : E) :
    ∀ (elements : List V) (idx : Nat) (d : diag.Diagnostic E),
      d ∈ basetypes.invalidElementDiags fw elementType idx elements →
      ∃ (k : Nat) (element : V), elements[k]? = some element ∧
        fw.typeEqual elementType (fw.valueType element) = false ∧
        d = .invalidListElementType elementType (idx + k) (fw.valueType element) := by
  intro elements
  induction elements with
  | nil => intro idx d h; simp [basetypes.invalidElementDiags] at h
  | cons e rest ih =>
    intro idx d h
    by_cases he : fw.typeEqual elementType (fw.valueType e) = true
    · simp [basetypes.invalidElementDiags, he] at h
      obtain ⟨k, element, hk, hne, hd⟩ := ih (idx + 1) d h
      refine ⟨k + 1, element, by simpa using hk, hne, ?_⟩
      rw [hd]; congr 1; omega
    · simp only [Bool.not_eq_true] at he
      simp [basetypes.invalidElementDiags, he] at h
      rcases h with h | h
      · exact ⟨0, e, by simp, he, by simpa using h⟩
      · obtain ⟨k, element, hk, hne, hd⟩ := ih (idx + 1) d h
        refine ⟨k + 1, element, by simpa using hk, hne, ?_⟩
        rw [hd]; congr 1; omega

theorem hasError_exists_mem (diags : diag.Diagnostics E) (h : diags.HasError = true) :
    ∃ d, d ∈ diags := by
  cases diags with
  | nil => simp [diag.Diagnostics.HasError] at h
  | cons d rest => exact ⟨d, List.mem_cons_self _ _⟩

theorem newListValue_of_typed (fw : Framework E V W WT N) (elementType : E) (elements : List V)
    (h : ∀ e ∈ elements, fw.typeEqual elementType (fw.valueType e) = true) :
    basetypes.NewListValue fw elementType elements =
      ({ elements := elements, elementType := some elementType, state := .ValueStateKnown }, []) := by
  unfold basetypes.NewListValue
  rw [invalidElementDiags_eq_nil fw elementType elements 0 h]
  rfl

theorem newListValue_snd (fw : Framework E V W WT N) (elementType : E) (elements : List V)
    (h : (basetypes.NewListValue fw elementType elements).2.HasError = true) :
    (basetypes.NewListValue fw elementType elements).2 =
      basetypes.invalidElementDiags fw elementType 0 elements := by
  unfold basetypes.NewListValue at h ⊢
  by_cases hd : (basetypes.invalidElementDiags fw elementType 0 elements).HasError = true
  · simp only [hd, if_true]
  · simp only [hd] at h
    exact absurd h (by simp [hasError_nil])

theorem listValue_equal_iff (fw : Framework E V W WT N) (l other : basetypes.ListValue E V) :
    basetypes.ListValue.Equal fw l (.ListValue other) = true ↔
      ∃ elementType otherType, l.elementType = some elementType ∧
        other.elementType = some otherType ∧
        fw.typeEqual elementType otherType = true ∧ l.state = other.state ∧
        (l.state = .ValueStateKnown →
          List.Forall₂ (fun a b => fw.valueEqual a b = true) l.elements other.elements) := by
  obtain ⟨les, lty, lst⟩ := l
  obtain ⟨oes, oty, ost⟩ := other
  cases lty with
  | none => simp [basetypes.ListValue.Equal]
  | some elementType =>
    cases oty with
    | none => simp [basetypes.ListValue.Equal]
    | some otherType =>
      simp only [basetypes.ListValue.Equal, Option.some.injEq, exists_and_left, exists_eq_left']
      by_cases hty : fw.typeEqual elementType otherType = true
      · by_cases hst : lst = ost
        · subst hst
          by_cases hk : lst = .ValueStateKnown
          · simp [hty, hk, List.forall₂_iff_zip]
          · simp [hty, hk]
        · simp [hty, hst]
      · simp [hty]

end Lemmas

/-! ## Re-typing path -/

section Retyping

variable {E V W WT N : Type}

/-- C1: for every element type `T`, `ValueFromList` applied to a null generic list returns
exactly `NewListNestedObjectValueOfNull[T]` with no diagnostics, and applied to an unknown
generic list returns exactly `NewListNestedObjectValueOfUnknown[T]` with no diagnostics,
whatever element type and elements the input list carries. -/
theorem ValueFromList_null_unknown (fw : Framework E V W WT N) (t : ListNestedObjectTypeOf E)
    (elements : List V) (elementType : Option E) :
    t.ValueFromList fw
        { elements := elements, elementType := elementType, state := .ValueStateNull } =
      (NewListNestedObjectValueOfNull fw t.T, []) ∧
    t.ValueFromList fw
        { elements := elements, elementType := elementType, state := .ValueStateUnknown } =
      (NewListNestedObjectValueOfUnknown fw t.T, []) := by
  constructor <;> rfl

/-- C2: for every known generic list whose elements are all of the Object Adapter's type for
`T` (the type `NewObjectTypeOf[T]` is `Equal` to each element's type), `ValueFromList` returns
no diagnostics and the known `ListNestedObjectValueOf[T]` whose element type is
`NewObjectTypeOf[T]` and whose elements are the input's elements, unchanged. -/
theorem ValueFromList_known (fw : Framework E V W WT N) (t : ListNestedObjectTypeOf E)
    (in_ : basetypes.ListValue E V) (hknown : in_.state = .ValueStateKnown)
    (htyped : ∀ e ∈ in_.elements, fw.typeEqual (fw.NewObjectTypeOf t.T) (fw.valueType e) = true) :
    t.ValueFromList fw in_ =
      ({ T := t.T,
         ListValue := { elements := in_.elements,
                        elementType := some (fw.NewObjectTypeOf t.T),
                        state := .ValueStateKnown } }, []) := by
  unfold ListNestedObjectTypeOf.ValueFromList
  simp only [basetypes.ListValue.IsNull, basetypes.ListValue.IsUnknown,
    basetypes.ListValue.Elements, hknown]
  rw [newListValue_of_typed fw _ _ htyped]
  simp [hasError_nil]

theorem ValueFromList_known_witness :
    (NewListNestedObjectTypeOf Sample.fw "Record").ValueFromList Sample.fw Sample.recordList =
      ({ T := "Record",
         ListValue := { elements := Sample.recordList.elements,
                        elementType := some (Sample.fw.NewObjectTypeOf "Record"),
                        state := .ValueStateKnown } }, []) :=
  ValueFromList_known Sample.fw (NewListNestedObjectTypeOf Sample.fw "Record") Sample.recordList
    rfl (by decide)

/-- C7: for every known generic list for which rebuilding the list with element type
`NewObjectTypeOf[T]` reports an error diagnostic, `ValueFromList` returns those diagnostics,
for which `HasError` is true, together with exactly `NewListNestedObjectValueOfUnknown[T]`:
the value in the unknown state, with element type `NewObjectTypeOf[T]` and no elements, never
a known or partially built value. -/
theorem ValueFromList_failure (fw : Framework E V W WT N) (t : ListNestedObjectTypeOf E)
    (in_ : basetypes.ListValue E V) (hknown : in_.state = .ValueStateKnown)
    (herr : (basetypes.NewListValue fw (fw.NewObjectTypeOf t.T) in_.Elements).2.HasError = true) :
    t.ValueFromList fw in_ =
      (NewListNestedObjectValueOfUnknown fw t.T,
        (basetypes.NewListValue fw (fw.NewObjectTypeOf t.T) in_.Elements).2) ∧
    (t.ValueFromList fw in_).2.HasError = true ∧
    (t.ValueFromList fw in_).1 =
      { T := t.T,
        ListValue := { elements := [],
                       elementType := some (fw.NewObjectTypeOf t.T),
                       state := .ValueStateUnknown } } ∧
    (t.ValueFromList fw in_).1.ListValue.IsUnknown = true ∧
    (t.ValueFromList fw in_).1.ListValue.IsNull = false ∧
    (t.ValueFromList fw in_).1.ListValue.state ≠ .ValueStateKnown ∧
    (t.ValueFromList fw in_).1.ListValue.Elements = [] := by
  have h : t.ValueFromList fw in_ =
      (NewListNestedObjectValueOfUnknown fw t.T,
        (basetypes.NewListValue fw (fw.NewObjectTypeOf t.T) in_.Elements).2) := by
    unfold ListNestedObjectTypeOf.ValueFromList
    simp only [basetypes.ListValue.IsNull, basetypes.ListValue.IsUnknown, hknown]
    simp [herr]
  refine ⟨h, by rw [h]; exact herr, ?_, ?_, ?_, ?_, ?_⟩ <;> rw [h] <;>
    simp [NewListNestedObjectValueOfUnknown, basetypes.NewListUnknown,
      basetypes.ListValue.IsUnknown, basetypes.ListValue.IsNull, basetypes.ListValue.Elements]

theorem ValueFromList_failure_witness :
    (NewListNestedObjectTypeOf Sample.fw "Record").ValueFromList Sample.fw Sample.stringList =
      (NewListNestedObjectValueOfUnknown Sample.fw "Record",
        (basetypes.NewListValue Sample.fw (Sample.fw.NewObjectTypeOf "Record")
          Sample.stringList.Elements).2) ∧
    ((NewListNestedObjectTypeOf Sample.fw "Record").ValueFromList Sample.fw
      Sample.stringList).2.HasError = true ∧
    ((NewListNestedObjectTypeOf Sample.fw "Record").ValueFromList Sample.fw Sample.stringList).1 =
      { T := "Record",
        ListValue := { elements := [],
                       elementType := some (Sample.fw.NewObjectTypeOf "Record"),
                       state := .ValueStateUnknown } } ∧
    ((NewListNestedObjectTypeOf Sample.fw "Record").ValueFromList Sample.fw
      Sample.stringList).1.ListValue.IsUnknown = true ∧
    ((NewListNestedObjectTypeOf Sample.fw "Record").ValueFromList Sample.fw
      Sample.stringList).1.ListValue.IsNull = false ∧
    ((NewListNestedObjectTypeOf Sample.fw "Record").ValueFromList Sample.fw
      Sample.stringList).1.ListValue.state ≠ .ValueStateKnown ∧
    ((NewListNestedObjectTypeOf Sample.fw "Record").ValueFromList Sample.fw
      Sample.stringList).1.ListValue.Elements = [] :=
  ValueFromList_failure Sample.fw (NewListNestedObjectTypeOf Sample.fw "Record")
    Sample.stringList rfl (by decide)

end Retyping

/-! ## Equality of descriptors and of values -/

section Equality

variable {E V W WT N : Type}

/-- C3: type-descriptor equality is nominal.  For distinct element types `T1` and `T2`,
`NewListNestedObjectTypeOf[T1](ctx).Equal(NewListNestedObjectTypeOf[T2](ctx))` is false,
whatever the Object Adapter derives from them; and for one `T`, `Equal(o)` is true exactly
when `o` is a `ListNestedObjectTypeOf[T]` and the underlying list-type equality holds. -/
theorem TypeOf_Equal_nominal (fw : Framework E V W WT N) :
    (∀ T1 T2 : GoType, T1 ≠ T2 →
      (NewListNestedObjectTypeOf fw T1).Equal fw
        (.ListNestedObjectTypeOf (NewListNestedObjectTypeOf fw T2)) = false) ∧
    (∀ (t : ListNestedObjectTypeOf E) (o : attr.AttrType E),
      t.Equal fw o = true ↔
        ∃ other : ListNestedObjectTypeOf E, o = .ListNestedObjectTypeOf other ∧ other.T = t.T ∧
          basetypes.ListType.Equal fw t.ListType (.ListType other.ListType) = true) := by
  constructor
  · intro T1 T2 hne
    have h : ¬ T2 = T1 := fun h => hne h.symm
    simp [ListNestedObjectTypeOf.Equal, NewListNestedObjectTypeOf, h]
  · intro t o
    cases o with
    | ListType l => simp [ListNestedObjectTypeOf.Equal]
    | elem e => simp [ListNestedObjectTypeOf.Equal]
    | ListNestedObjectTypeOf other =>
      by_cases hT : other.T = t.T
      · simp [ListNestedObjectTypeOf.Equal, hT]
      · simp only [ListNestedObjectTypeOf.Equal, hT, if_false]
        constructor
        · intro h; exact absurd h (by simp)
        · rintro ⟨x, hx, hxT, _⟩
          cases hx
          exact absurd hxT hT

theorem TypeOf_Equal_nominal_witness :
    Sample.fw.NewObjectTypeOf "Record" = Sample.fw.NewObjectTypeOf "Twin" ∧
    Sample.fw.typeEqual (Sample.fw.NewObjectTypeOf "Record") (Sample.fw.NewObjectTypeOf "Twin")
      = true ∧
    (NewListNestedObjectTypeOf Sample.fw "Record").Equal Sample.fw
      (.ListNestedObjectTypeOf (NewListNestedObjectTypeOf Sample.fw "Twin")) = false :=
  ⟨by decide, by decide, (TypeOf_Equal_nominal Sample.fw).1 "Record" "Twin" (by decide)⟩

/-- C4: `ListNestedObjectValueOf[T].Equal(o)` is true if and only if `o` is a
`ListNestedObjectValueOf` of the same `T` and the underlying list values are equal; the
underlying list values are equal if and only if both have an element type and these are
`Equal`, the states are the same, and the elements are pairwise `Equal` when the state is
known.  In particular the null value and the unknown value of one `T` are not `Equal`, in
both argument orders. -/
theorem ValueOf_Equal_iff (fw : Framework E V W WT N) :
    (∀ (v : ListNestedObjectValueOf E V) (o : attr.Value E V),
      v.Equal fw o = true ↔
        ∃ other : ListNestedObjectValueOf E V, o = .ListNestedObjectValueOf other ∧
          other.T = v.T ∧
          basetypes.ListValue.Equal fw v.ListValue (.ListValue other.ListValue) = true) ∧
    (∀ l other : basetypes.ListValue E V,
      basetypes.ListValue.Equal fw l (.ListValue other) = true ↔
        ∃ elementType otherType, l.elementType = some elementType ∧
          other.elementType = some otherType ∧
          fw.typeEqual elementType otherType = true ∧ l.state = other.state ∧
          (l.state = .ValueStateKnown →
            List.Forall₂ (fun a b => fw.valueEqual a b = true) l.elements other.elements)) ∧
    (∀ T : GoType,
      (NewListNestedObjectValueOfNull fw T).Equal fw
        (.ListNestedObjectValueOf (NewListNestedObjectValueOfUnknown fw T)) = false ∧
      (NewListNestedObjectValueOfUnknown fw T).Equal fw
        (.ListNestedObjectValueOf (NewListNestedObjectValueOfNull fw T)) = false) := by
  refine ⟨?_, listValue_equal_iff fw, ?_⟩
  · intro v o
    cases o with
    | ListValue l => simp [ListNestedObjectValueOf.Equal]
    | elem e => simp [ListNestedObjectValueOf.Equal]
    | ListNestedObjectValueOf other =>
      by_cases hT : other.T = v.T
      · simp [ListNestedObjectValueOf.Equal, hT]
      · simp only [ListNestedObjectValueOf.Equal, hT, if_false]
        constructor
        · intro h; exact absurd h (by simp)
        · rintro ⟨x, hx, hxT, _⟩
          cases hx
          exact absurd hxT hT
  · intro T
    constructor <;>
      simp [ListNestedObjectValueOf.Equal, NewListNestedObjectValueOfNull,
        NewListNestedObjectValueOfUnknown, basetypes.ListValue.Equal, basetypes.NewListNull,
        basetypes.NewListUnknown]

theorem ValueOf_Equal_iff_witness :
    (NewListNestedObjectValueOfNull Sample.fw "Record").Equal Sample.fw
        (.ListNestedObjectValueOf (NewListNestedObjectValueOfUnknown Sample.fw "Record")) = false ∧
    (NewListNestedObjectValueOfUnknown Sample.fw "Record").Equal Sample.fw
        (.ListNestedObjectValueOf (NewListNestedObjectValueOfNull Sample.fw "Record")) = false :=
  (ValueOf_Equal_iff Sample.fw).2.2 "Record"

end Equality

/-! ## Decode path -/

section Decode

variable {E V W WT N : Type}

/-- C6: for every wire value on which the underlying generic list decoder fails with error
`e`, `ValueFromTerraform` returns no value together with exactly that error `e`; and
`ValueFromTerraform` never returns both a non-nil error and a value. -/
theorem ValueFromTerraform_error (fw : Framework E V W WT N) [DecidableEq WT]
    (t : ListNestedObjectTypeOf E) (in_ : tftypes.Value W WT) :
    (∀ (a : Option (attr.Value E V)) (e : DecodeError E V),
      basetypes.ListType.ValueFromTerraform fw t.ListType in_ = some (a, some e) →
      t.ValueFromTerraform fw in_ = some (none, some e)) ∧
    (∀ (a : Option (attr.Value E V)) (e : DecodeError E V),
      t.ValueFromTerraform fw in_ = some (a, some e) → a = none) := by
  constructor
  · intro a e h
    simp [ListNestedObjectTypeOf.ValueFromTerraform, h]
  · intro a e h
    unfold ListNestedObjectTypeOf.ValueFromTerraform at h
    split at h
    · simp at h
    · simp at h; exact h.1.symm
    · split at h
      · simp only at h
        split at h
        · simp at h; exact h.1.symm
        · simp at h
      · simp at h; exact h.1.symm

theorem ValueFromTerraform_error_witness :
    (NewListNestedObjectTypeOf Sample.fw "Record").ValueFromTerraform Sample.fw Sample.malformed =
      some (none, some (.text "can't use value as value of List with this ElementType")) :=
  (ValueFromTerraform_error Sample.fw (NewListNestedObjectTypeOf Sample.fw "Record")
    Sample.malformed).1 none _ (by decide)

/-- C8: on the decode path, when the generic list decoder yields a list value and re-typing it
fails (`ValueFromList` returns error diagnostics), `ValueFromTerraform` returns no value and
the error that wraps those diagnostics; the diagnostics identify the unexpected concrete type:
they hold, for some element of the list, its index and its type, which `NewObjectTypeOf[T]`
does not `Equal`. -/
theorem ValueFromTerraform_retype_failure (fw : Framework E V W WT N) [DecidableEq WT]
    (t : ListNestedObjectTypeOf E) (in_ : tftypes.Value W WT) (listValue : basetypes.ListValue E V)
    (hdecoded : basetypes.ListType.ValueFromTerraform fw t.ListType in_ =
      some (some (.ListValue listValue), none))
    (hfail : (t.ValueFromList fw listValue).2.HasError = true) :
    t.ValueFromTerraform fw in_ =
      some (none, some (.convertingListValue (t.ValueFromList fw listValue).2)) ∧
    ∃ (idx : Nat) (element : V), listValue.elements[idx]? = some element ∧
      fw.typeEqual (fw.NewObjectTypeOf t.T) (fw.valueType element) = false ∧
      diag.Diagnostic.invalidListElementType (fw.NewObjectTypeOf t.T) idx (fw.valueType element)
        ∈ (t.ValueFromList fw listValue).2 := by
  constructor
  · simp [ListNestedObjectTypeOf.ValueFromTerraform, hdecoded, hfail]
  · obtain ⟨d, hd⟩ := hasError_exists_mem _ hfail
    have hrebuild : (t.ValueFromList fw listValue).2 =
        basetypes.invalidElementDiags fw (fw.NewObjectTypeOf t.T) 0 listValue.elements := by
      unfold ListNestedObjectTypeOf.ValueFromList at hfail ⊢
      by_cases h1 : listValue.IsNull = true
      · simp [h1, hasError_nil] at hfail
      · by_cases h2 : listValue.IsUnknown = true
        · simp [h1, h2, hasError_nil] at hfail
        · by_cases h3 : (basetypes.NewListValue fw (fw.NewObjectTypeOf t.T)
              listValue.Elements).2.HasError = true
          · simp only [h1, h2, h3, if_true, if_false, Bool.false_eq_true]
            exact newListValue_snd fw _ _ h3
          · simp [h1, h2, h3, hasError_nil] at hfail
    rw [hrebuild] at hd ⊢
    obtain ⟨k, element, hk, hne, hdk⟩ := invalidElementDiags_mem fw _ _ 0 d hd
    refine ⟨k, element, hk, hne, ?_⟩
    simp only [Nat.zero_add] at hdk
    rw [← hdk]; exact hd

theorem ValueFromTerraform_retype_failure_witness :
    Sample.stringTyped.ValueFromTerraform Sample.fw Sample.wireStrings =
      some (none, some (.convertingListValue
        (Sample.stringTyped.ValueFromList Sample.fw Sample.stringList).2)) ∧
    ∃ (idx : Nat) (element : Sample.Val), Sample.stringList.elements[idx]? = some element ∧
      Sample.fw.typeEqual (Sample.fw.NewObjectTypeOf "Record") (Sample.fw.valueType element)
        = false ∧
      diag.Diagnostic.invalidListElementType (Sample.fw.NewObjectTypeOf "Record") idx
          (Sample.fw.valueType element)
        ∈ (Sample.stringTyped.ValueFromList Sample.fw Sample.stringList).2 :=
  ValueFromTerraform_retype_failure Sample.fw Sample.stringTyped Sample.wireStrings
    Sample.stringList (by decide) (by decide)

end Decode

/-! ## Construction from native data -/

section Constructors

variable {E V W WT N : Type}

theorem decode_typed_list (fw : Framework E V W WT N) [DecidableEq WT] (elemType : E)
    (ws : List W) (vs : List V) (hdec : basetypes.decodeElements fw elemType ws = .ok vs)
    (htyped : ∀ v ∈ vs, fw.typeEqual elemType (fw.valueType v) = true) :
    basetypes.ListType.ValueFromTerraform fw { ElemType := some elemType }
        { typ := some (.List (fw.terraformType elemType)), value := .elems ws } =
      some (some (.ListValue
        { elements := vs, elementType := some elemType, state := .ValueStateKnown }), none) := by
  simp [basetypes.ListType.ValueFromTerraform, tftypes.WireType.Equal, tftypes.Value.IsKnown,
    tftypes.Value.IsNull, tftypes.Value.As, hdec, basetypes.NewListValueMust,
    newListValue_of_typed fw elemType vs htyped, hasError_nil]

theorem validate_singleton (fw : Framework E V W WT N) [DecidableEq WT] (typ : WT) (w : W)
    (h : fw.usableAs (fw.wireType w) typ = true) :
    tftypes.ValidateValue fw (.List typ) [w] = (none : Option (DecodeError E V)) := by
  simp [tftypes.ValidateValue, tftypes.validateListLoop, h]

/-- C9: for every `T`, `NewListNestedObjectValueOfSlice(ctx, []*T{})` returns a value; it is
known (neither null nor unknown), has zero elements, and is not `Equal` to
`NewListNestedObjectValueOfNull[T](ctx)`. -/
theorem NewListNestedObjectValueOfSlice_empty (fw : Framework E V W WT N) [DecidableEq WT]
    (T : GoType) :
    ∃ v : ListNestedObjectValueOf E V,
      NewListNestedObjectValueOfSlice fw T (some []) = some v ∧
      v.ListValue.state = .ValueStateKnown ∧
      v.ListValue.IsNull = false ∧ v.ListValue.IsUnknown = false ∧
      v.ListValue.Elements = [] ∧
      v.Equal fw (.ListNestedObjectValueOf (NewListNestedObjectValueOfNull fw T)) = false := by
  refine ⟨⟨T, ⟨[], some (fw.NewObjectTypeOf T), .ValueStateKnown⟩⟩, ?_, rfl, rfl, rfl, rfl, ?_⟩
  · have hd := decode_typed_list fw (fw.NewObjectTypeOf T) [] [] rfl (by simp)
    simp [NewListNestedObjectValueOfSlice, newListNestedObjectValueOf,
      basetypes.NewListValueFrom, reflect.FromSlice, basetypes.ListType.TerraformType,
      reflect.fromSliceLoop, tftypes.ValidateValue, tftypes.validateListLoop, hd, hasError_nil,
      fwdiag.Must]
  · simp [ListNestedObjectValueOf.Equal, NewListNestedObjectValueOfNull,
      basetypes.ListValue.Equal, basetypes.NewListNull]

/-- C5, as amended: construction round-trip.  For every native record `r` of type `T` that
the Object Adapter can represent, provided the Object Adapter's conversion for `T` is lossless
(`LosslessObjectAdapter`), `NewListNestedObjectValueOf(ctx, &r)` returns a known one-element
list whose element is `Equal` to the Object Adapter's conversion of `r`; its wire encoding
succeeds, and decoding that with `ListNestedObjectTypeOf[T].ValueFromTerraform` succeeds with
a nil error and yields a known one-element value that is `Equal` to
`NewListNestedObjectValueOf(ctx, &r)`. -/
theorem NewListNestedObjectValueOf_round_trip (fw : Framework E V W WT N) [DecidableEq WT]
    (T : GoType) (r : N) (hlossless : LosslessObjectAdapter fw T)
    (hrep : Representable fw T r) :
    ∃ (v : ListNestedObjectValueOf E V) (w : tftypes.Value W WT)
      (x : ListNestedObjectValueOf E V) (e v0 : V),
      NewListNestedObjectValueOf fw T r = some v ∧
      v.ListValue.state = .ValueStateKnown ∧ v.ListValue.elements = [e] ∧
      (fw.fromValue (fw.NewObjectTypeOf T) r).1 = some v0 ∧ fw.valueEqual e v0 = true ∧
      v.ListValue.ToTerraformValue fw = some (w, none) ∧
      (NewListNestedObjectTypeOf fw T).ValueFromTerraform fw w =
        some (some (.ListNestedObjectValueOf x), none) ∧
      x.ListValue.state = .ValueStateKnown ∧ x.ListValue.elements.length = 1 ∧
      x.Equal fw (.ListNestedObjectValueOf v) = true := by
  obtain ⟨v0, hv0, hd0, ht0⟩ := hrep
  obtain ⟨w0, hw0, hu0, v1, hv1, he1⟩ := hlossless.round_trip v0 ht0
  have ht1 := hlossless.decode_typed w0 v1 hv1
  obtain ⟨w1, hw1, hu1, v2, hv2, he2⟩ := hlossless.round_trip v1 ht1
  have ht2 := hlossless.decode_typed w1 v2 hv2
  have hdec1 : basetypes.decodeElements fw (fw.NewObjectTypeOf T) [w0] = .ok [v1] := by
    simp [basetypes.decodeElements, hv1]
  have hdec2 : basetypes.decodeElements fw (fw.NewObjectTypeOf T) [w1] = .ok [v2] := by
    simp [basetypes.decodeElements, hv2]
  have hl1 := decode_typed_list fw (fw.NewObjectTypeOf T) [w0] [v1] hdec1 (by simpa using ht1)
  have hl2 := decode_typed_list fw (fw.NewObjectTypeOf T) [w1] [v2] hdec2 (by simpa using ht2)
  refine ⟨⟨T, ⟨[v1], some (fw.NewObjectTypeOf T), .ValueStateKnown⟩⟩,
    ⟨some (.List (fw.terraformType (fw.NewObjectTypeOf T))), .elems [w1]⟩,
    ⟨T, ⟨[v2], some (fw.NewObjectTypeOf T), .ValueStateKnown⟩⟩,
    v1, v0, ?_, rfl, rfl, hv0, he1, ?_, ?_, rfl, rfl, ?_⟩
  · simp [NewListNestedObjectValueOf, NewListNestedObjectValueOfSlice,
      newListNestedObjectValueOf, basetypes.NewListValueFrom, reflect.FromSlice,
      basetypes.ListType.TerraformType, reflect.fromSliceLoop, hv0, hd0, hw0,
      validate_singleton fw _ w0 hu0, hl1, fwdiag.Must]
  · simp [basetypes.ListValue.ToTerraformValue, basetypes.encodeElements, hw1,
      validate_singleton fw _ w1 hu1]
  · have hre := newListValue_of_typed fw (fw.NewObjectTypeOf T) [v2] (by simpa using ht2)
    simp [ListNestedObjectTypeOf.ValueFromTerraform, NewListNestedObjectTypeOf, hl2,
      ListNestedObjectTypeOf.ValueFromList, basetypes.ListValue.IsNull,
      basetypes.ListValue.IsUnknown, basetypes.ListValue.Elements, hre, hasError_nil]
  · simp [ListNestedObjectValueOf.Equal, basetypes.ListValue.Equal, hlossless.type_refl, he2]

theorem sample_lossless : LosslessObjectAdapter Sample.fw "Record" where
  type_refl := by decide
  decode_typed := by
    intro w v h
    cases w with
    | str s => simp [Sample.fw] at h
    | obj wattrs r =>
      by_cases hattrs : Sample.attributeNames "Record" = wattrs
      · simp [Sample.fw, hattrs] at h
        subst h
        simp [Sample.fw, hattrs]
      · simp [Sample.fw, hattrs] at h
  round_trip := by
    intro v h
    cases v with
    | StringValue s => simp [Sample.fw] at h
    | ObjectValue attrs r =>
      simp [Sample.fw] at h
      subst h
      exact ⟨.obj (Sample.attributeNames "Record") r, rfl, by simp [Sample.fw],
        .ObjectValue (Sample.attributeNames "Record") r, by simp [Sample.fw],
        by simp [Sample.fw]⟩

theorem sample_representable : Representable Sample.fw "Record" Sample.r :=
  ⟨.ObjectValue ["a", "b"] Sample.r, by decide, by decide, by decide⟩

theorem NewListNestedObjectValueOf_round_trip_witness :
    ∃ (v : ListNestedObjectValueOf Sample.Ty Sample.Val) (w : tftypes.Value Sample.Wire Sample.WTy)
      (x : ListNestedObjectValueOf Sample.Ty Sample.Val) (e v0 : Sample.Val),
      NewListNestedObjectValueOf Sample.fw "Record" Sample.r = some v ∧
      v.ListValue.state = .ValueStateKnown ∧ v.ListValue.elements = [e] ∧
      (Sample.fw.fromValue (Sample.fw.NewObjectTypeOf "Record") Sample.r).1 = some v0 ∧
      Sample.fw.valueEqual e v0 = true ∧
      v.ListValue.ToTerraformValue Sample.fw = some (w, none) ∧
      (NewListNestedObjectTypeOf Sample.fw "Record").ValueFromTerraform Sample.fw w =
        some (some (.ListNestedObjectValueOf x), none) ∧
      x.ListValue.state = .ValueStateKnown ∧ x.ListValue.elements.length = 1 ∧
      x.Equal Sample.fw (.ListNestedObjectValueOf v) = true :=
  NewListNestedObjectValueOf_round_trip Sample.fw "Record" Sample.r sample_lossless
    sample_representable

/-- C5 fails as stated: representability alone does not give the round trip.  With the element
decoder of `Sample.drifting` the record `r` is representable, `NewListNestedObjectValueOf(ctx,
&r)` returns a known one-element list, its wire encoding succeeds and decoding succeeds with a
nil error, but the decoded value is not `Equal` to `NewListNestedObjectValueOf(ctx, &r)`. -/
theorem NewListNestedObjectValueOf_round_trip_fails :
    Representable Sample.drifting "Record" Sample.r ∧
    NewListNestedObjectValueOf Sample.drifting "Record" Sample.r =
      some { T := "Record",
             ListValue := { elements := [.ObjectValue ["a", "b"] { A := 2, B := "x" }],
                            elementType := some (.ObjectType ["a", "b"]),
                            state := .ValueStateKnown } } ∧
    basetypes.ListValue.ToTerraformValue Sample.drifting
        { elements := [.ObjectValue ["a", "b"] { A := 2, B := "x" }],
          elementType := some (.ObjectType ["a", "b"]),
          state := .ValueStateKnown } =
      some ({ typ := some (.List (.Object ["a", "b"])),
              value := .elems [.obj ["a", "b"] { A := 2, B := "x" }] }, none) ∧
    (NewListNestedObjectTypeOf Sample.drifting "Record").ValueFromTerraform Sample.drifting
        { typ := some (.List (.Object ["a", "b"])),
          value := .elems [.obj ["a", "b"] { A := 2, B := "x" }] } =
      some (some (.ListNestedObjectValueOf
        { T := "Record",
          ListValue := { elements := [.ObjectValue ["a", "b"] { A := 3, B := "x" }],
                         elementType := some (.ObjectType ["a", "b"]),
                         state := .ValueStateKnown } }), none) ∧
    ListNestedObjectValueOf.Equal Sample.drifting
        { T := "Record",
          ListValue := { elements := [.ObjectValue ["a", "b"] { A := 3, B := "x" }],
                         elementType := some (.ObjectType ["a", "b"]),
                         state := .ValueStateKnown } }
        (.ListNestedObjectValueOf
          { T := "Record",
            ListValue := { elements := [.ObjectValue ["a", "b"] { A := 2, B := "x" }],
                           elementType := some (.ObjectType ["a", "b"]),
                           state := .ValueStateKnown } }) = false :=
  ⟨⟨.ObjectValue ["a", "b"] Sample.r, by decide, by decide, by decide⟩,
    by decide, by decide, by decide, by decide⟩

end Constructors

/-! ## Route 53 finders -/

section Finders

open route53

/-- The sibling `FindTrafficPolicyInstanceId` never reports success after a failed call: with a
non-nil error it returns no output, and the error is a `NotFoundError` carrying the SDK error
exactly when that has code `NoSuchTrafficPolicyInstance`, and the SDK error itself otherwise. -/
theorem FindTrafficPolicyInstanceId_failed_call (conn : Route53) (id : String) (err : SdkError)
    (herr : (conn.GetTrafficPolicyInstanceWithContext { Id := id }).2 = some err) :
    FindTrafficPolicyInstanceId conn id =
      if tfawserr.ErrCodeEquals (some err) ErrCodeNoSuchTrafficPolicyInstance then
        (none, some (.NotFoundError (some err) { Id := id } ""))
      else (none, some (.sdk err)) := by
  unfold FindTrafficPolicyInstanceId
  simp only [herr]

/-- C10 fails on the code: `FindHealthCheckByID` has no `err != nil` check.  With a throttling
error and an empty output it returns the empty-result error in place of the SDK error; with a
throttling error next to a filled output it returns the health check and a nil error; on the
same responses `FindTrafficPolicyInstanceId` returns the SDK error itself. -/
theorem FindHealthCheckByID_failed_call :
    (Sample.throttled.GetHealthCheck { HealthCheckId := "hc" }).2
      = some (.awserr "Throttling" "Rate exceeded") ∧
    FindHealthCheckByID Sample.throttled "hc"
      = (none, some (.EmptyResultError { HealthCheckId := "hc" })) ∧
    (Sample.throttledWithOutput.GetHealthCheck { HealthCheckId := "hc" }).2
      = some (.awserr "Throttling" "Rate exceeded") ∧
    FindHealthCheckByID Sample.throttledWithOutput "hc"
      = (some { Id := "hc", HealthCheckConfig := some { FullyQualifiedDomainName := "example.com" } },
          none) ∧
    FindTrafficPolicyInstanceId Sample.throttled "hc"
      = (none, some (.sdk (.awserr "Throttling" "Rate exceeded"))) ∧
    FindTrafficPolicyInstanceId Sample.throttledWithOutput "hc"
      = (none, some (.sdk (.awserr "Throttling" "Rate exceeded"))) := by
  decide

end Finders
